import Mathlib

/-!
Verification development for the PhantomGaze raymarching renderer.

The definitions below are a shallow embedding of the Python source:
floating-point scalars are modelled as rationals (`ℚ`), the depth buffer
(which stores `+inf` for not-yet-hit pixels) as `WithTop ℚ`, and device
arrays as bounds-checked accessors returning `Option` so that an
out-of-range index is observable as `none` (a fault).  Square roots (the
`** 0.5` in `normalize`/`length`) are not exactly representable in `ℚ`;
kernels that call them take an explicit `sq : ℚ → ℚ` parameter standing
for the square-root routine, and no theorem below depends on its values.
-/

namespace PhantomGaze

/-- 3-vector of scalars, as the Python code's 3-tuples. -/
abbrev V3 := ℚ × ℚ × ℚ

/-- RGB color triple. -/
abbrev RGB := ℚ × ℚ × ℚ

/-- RGBA color quadruple. -/
abbrev RGBA := ℚ × ℚ × ℚ × ℚ

/-! ## `phantomgaze/utils/math.py` -/

/-- Embeds `clamp` (utils/math.py): `max(min(value, max_value), min_value)`. -/
def clamp (value minValue maxValue : ℚ) : ℚ :=
  max (min value maxValue) minValue

/-- Embeds `sign` (utils/math.py): `-1` if negative else `1`. -/
def sign (value : ℚ) : ℚ :=
  if value < 0 then -1 else 1

/-- Embeds the 3-component case of `dot` (utils/math.py). -/
def dot (v w : V3) : ℚ :=
  v.1 * w.1 + v.2.1 * w.2.1 + v.2.2 * w.2.2

/-- Embeds the 2-component case of `dot` (utils/math.py). -/
def dot2 (v w : ℚ × ℚ) : ℚ :=
  v.1 * w.1 + v.2 * w.2

/-- Embeds `cross` (utils/math.py). -/
def cross (v w : V3) : V3 :=
  (v.2.1 * w.2.2 - v.2.2 * w.2.1,
   v.2.2 * w.1 - v.1 * w.2.2,
   v.1 * w.2.1 - v.2.1 * w.1)

/-- Embeds the 3-component case of `length` (utils/math.py); `sq` stands for
the square root `** 0.5`. -/
def length (sq : ℚ → ℚ) (v : V3) : ℚ :=
  sq (v.1 ^ 2 + v.2.1 ^ 2 + v.2.2 ^ 2)

/-- Embeds `normalize` (utils/math.py); `sq` stands for the square root. -/
def normalize (sq : ℚ → ℚ) (v : V3) : V3 :=
  (v.1 / length sq v, v.2.1 / length sq v, v.2.2 / length sq v)

/-- Python `int()` applied to a scalar: truncation toward zero. -/
def pyInt (q : ℚ) : ℤ :=
  q.num.tdiv q.den

/-- Componentwise vector sum, used to spell out the tuple arithmetic the
kernels write out by hand. -/
def vadd (v w : V3) : V3 :=
  (v.1 + w.1, v.2.1 + w.2.1, v.2.2 + w.2.2)

/-- Advance a position along a direction: `pos + t * dir`, componentwise as
written in the kernels. -/
def stepAlong (pos dir : V3) (t : ℚ) : V3 :=
  (pos.1 + dir.1 * t, pos.2.1 + dir.2.1 * t, pos.2.2 + dir.2.2 * t)

/-! ## Device arrays

A 3-D device array is a shape together with the stored values.  `get?` is a
bounds-checked read: `none` models an out-of-range access (numba performs no
bounds check, so such a read is a fault / undefined behavior in the source).
-/

/-- 3-D scalar grid array with its shape. -/
structure Grid where
  nx : ℕ
  ny : ℕ
  nz : ℕ
  data : ℤ → ℤ → ℤ → ℚ

/-- Bounds-checked read of a grid array. -/
def Grid.get? (g : Grid) (i j k : ℤ) : Option ℚ :=
  if 0 ≤ i ∧ i < (g.nx : ℤ) ∧ 0 ≤ j ∧ j < (g.ny : ℤ) ∧ 0 ≤ k ∧ k < (g.nz : ℤ)
  then some (g.data i j k) else none

/-! ## `phantomgaze/render/utils.py` -/

/-- Embeds `_safe_index_array` (render/utils.py lines 10-39): each index is
clamped into range when it is out of bounds, then the array is read. -/
def safeIndexArray (g : Grid) (i j k : ℤ) : Option ℚ :=
  let i := if i < 0 ∨ i ≥ (g.nx : ℤ) then min (max i 0) ((g.nx : ℤ) - 1) else i
  let j := if j < 0 ∨ j ≥ (g.ny : ℤ) then min (max j 0) ((g.ny : ℤ) - 1) else j
  let k := if k < 0 ∨ k ≥ (g.nz : ℤ) then min (max k 0) ((g.nz : ℤ) - 1) else k
  g.get? i j k

/-- Embeds `_trilinear_interpolation` (render/utils.py lines 41-81). -/
def trilinearInterpolation (v000 v100 v010 v110 v001 v101 v011 v111 dx dy dz : ℚ) : ℚ :=
  let v00 := v000 * (1 - dx) + v100 * dx
  let v10 := v010 * (1 - dx) + v110 * dx
  let v01 := v001 * (1 - dx) + v101 * dx
  let v11 := v011 * (1 - dx) + v111 * dx
  let v0 := v00 * (1 - dy) + v10 * dy
  let v1 := v01 * (1 - dy) + v11 * dy
  v0 * (1 - dz) + v1 * dz

/-- Embeds `sample_array` (render/utils.py lines 83-136): integer cell index
by `int()` truncation, fractional offsets, eight `_safe_index_array` reads,
trilinear interpolation. -/
def sampleArray (g : Grid) (spacing origin position : V3) : Option ℚ := do
  let i := pyInt ((position.1 - origin.1) / spacing.1)
  let j := pyInt ((position.2.1 - origin.2.1) / spacing.2.1)
  let k := pyInt ((position.2.2 - origin.2.2) / spacing.2.2)
  let dx := (position.1 - origin.1) / spacing.1 - i
  let dy := (position.2.1 - origin.2.1) / spacing.2.1 - j
  let dz := (position.2.2 - origin.2.2) / spacing.2.2 - k
  let v000 ← safeIndexArray g i j k
  let v100 ← safeIndexArray g (i + 1) j k
  let v010 ← safeIndexArray g i (j + 1) k
  let v110 ← safeIndexArray g (i + 1) (j + 1) k
  let v001 ← safeIndexArray g i j (k + 1)
  let v101 ← safeIndexArray g (i + 1) j (k + 1)
  let v011 ← safeIndexArray g i (j + 1) (k + 1)
  let v111 ← safeIndexArray g (i + 1) (j + 1) (k + 1)
  pure (trilinearInterpolation v000 v100 v010 v110 v001 v101 v011 v111 dx dy dz)

/-- Embeds `sample_array_derivative` (render/utils.py lines 138-188).  The
raw (unclamped) reads of the source are bounds-checked here, so an
out-of-range read surfaces as `none`. -/
def sampleArrayDerivative (g : Grid) (spacing origin position : V3) : Option V3 := do
  let i := pyInt ((position.1 - origin.1) / spacing.1)
  let j := pyInt ((position.2.1 - origin.2.1) / spacing.2.1)
  let k := pyInt ((position.2.2 - origin.2.2) / spacing.2.2)
  let arrayDx ←
    if i ≤ 0 then do
      let a ← g.get? 1 j k
      let b ← g.get? 0 j k
      pure ((a - b) / spacing.1)
    else if i ≥ (g.nx : ℤ) - 1 then do
      let a ← g.get? (i + 1) j k
      let b ← g.get? (i - 1) j k
      pure ((a - b) / (2 * spacing.1))
    else do
      let a ← g.get? i j k
      let b ← g.get? (i - 1) j k
      pure ((a - b) / spacing.1)
  let arrayDy ←
    if j ≤ 0 then do
      let a ← g.get? i 1 k
      let b ← g.get? i 0 k
      pure ((a - b) / spacing.2.1)
    else if j ≥ (g.ny : ℤ) - 1 then do
      let a ← g.get? i (j + 1) k
      let b ← g.get? i (j - 1) k
      pure ((a - b) / (2 * spacing.2.1))
    else do
      let a ← g.get? i j k
      let b ← g.get? i (j - 1) k
      pure ((a - b) / spacing.2.1)
  let arrayDz ←
    if k ≤ 0 then do
      let a ← g.get? i j 1
      let b ← g.get? i j 0
      pure ((a - b) / spacing.2.2)
    else if k ≥ (g.nz : ℤ) - 1 then do
      let a ← g.get? i j (k + 1)
      let b ← g.get? i j (k - 1)
      pure ((a - b) / (2 * spacing.2.2))
    else do
      let a ← g.get? i j k
      let b ← g.get? i j (k - 1)
      pure ((a - b) / spacing.2.2)
  pure (arrayDx, arrayDy, arrayDz)

/-- Embeds `ray_intersect_box` (render/utils.py lines 192-233).  Division by
a zero direction component yields `0` in `ℚ` (the source relies on IEEE
infinities there); no theorem below depends on that case. -/
def rayIntersectBox (boxOrigin boxUpper rayOrigin rayDir : V3) : ℚ × ℚ :=
  let tminX := (boxOrigin.1 - rayOrigin.1) / rayDir.1
  let tmaxX := (boxUpper.1 - rayOrigin.1) / rayDir.1
  let tminY := (boxOrigin.2.1 - rayOrigin.2.1) / rayDir.2.1
  let tmaxY := (boxUpper.2.1 - rayOrigin.2.1) / rayDir.2.1
  let tminZ := (boxOrigin.2.2 - rayOrigin.2.2) / rayDir.2.2
  let tmaxZ := (boxUpper.2.2 - rayOrigin.2.2) / rayDir.2.2
  let tmminX := min tminX tmaxX
  let tmmaxX := max tminX tmaxX
  let tmminY := min tminY tmaxY
  let tmmaxY := max tminY tmaxY
  let tmminZ := min tminZ tmaxZ
  let tmmaxZ := max tminZ tmaxZ
  (max 0 (max tmminX (max tmminY tmminZ)), min tmmaxX (min tmmaxY tmmaxZ))

/-! ## `phantomgaze/render/color.py` -/

/-- RGBA color lookup table with its row count. -/
structure ColorTable where
  size : ℕ
  data : ℤ → RGBA

/-- Bounds-checked read of a color table row. -/
def ColorTable.get? (t : ColorTable) (i : ℤ) : Option RGBA :=
  if 0 ≤ i ∧ i < (t.size : ℤ) then some (t.data i) else none

/-- Index computed by `scalar_to_color` (render/color.py lines 22-26): the
value is clamped into `[vmin, vmax]` and mapped affinely onto the table. -/
def scalarColorIndex (value vmin vmax : ℚ) (size : ℕ) : ℤ :=
  pyInt ((min (max value vmin) vmax - vmin) / (vmax - vmin) * ((size : ℚ) - 1))

/-- Embeds `scalar_to_color` (render/color.py lines 6-35): clamp, index,
table lookup. -/
def scalarToColor (value : ℚ) (t : ColorTable) (vmin vmax : ℚ) : Option RGBA :=
  t.get? (scalarColorIndex value vmin vmax t.size)

/-! ## `phantomgaze/camera.py` and `phantomgaze/background.py` -/

/-- Embeds `Camera` (camera.py): position, focal point, up vector, image
size, max render depth, and the `SolidBackground` color. -/
structure Camera where
  position : V3
  focalPoint : V3
  viewUp : V3
  height : ℕ
  width : ℕ
  maxDepth : ℚ
  background : RGB

/-! ## `phantomgaze/buffers.py` -/

/-- Embeds the six per-pixel buffers of `ScreenBuffer` plus the derived
image buffer.  The depth buffer stores `⊤` for `+inf`.  Each buffer is a
function of the pixel coordinates `(y, x)`. -/
structure ScreenBuffer (H W : ℕ) where
  opqPixelBuffer : Fin H → Fin W → RGB
  depthBuffer : Fin H → Fin W → WithTop ℚ
  normalBuffer : Fin H → Fin W → V3
  transparentPixelBuffer : Fin H → Fin W → RGB
  revealageBuffer : Fin H → Fin W → ℚ
  backgroundBuffer : Fin H → Fin W → RGB
  imageBuffer : Fin H → Fin W → RGBA

/-- Initial buffer contents allocated by `ScreenBuffer.__init__`
(buffers.py lines 75-93): zeros everywhere except depth (`+inf`) and
revealage (`1.0`). -/
def ScreenBuffer.init (H W : ℕ) : ScreenBuffer H W where
  opqPixelBuffer := fun _ _ => (0, 0, 0)
  depthBuffer := fun _ _ => ⊤
  normalBuffer := fun _ _ => (0, 0, 0)
  transparentPixelBuffer := fun _ _ => (0, 0, 0)
  revealageBuffer := fun _ _ => 1
  backgroundBuffer := fun _ _ => (0, 0, 0)
  imageBuffer := fun _ _ => (0, 0, 0, 0)

/-- Embeds `ScreenBuffer.from_camera` (buffers.py lines 95-113): a fresh
buffer whose background plane is filled from the camera's background
color. -/
def ScreenBuffer.fromCamera (cam : Camera) : ScreenBuffer cam.height cam.width :=
  { ScreenBuffer.init cam.height cam.width with
    backgroundBuffer := fun _ _ => cam.background }

/-- Embeds `ScreenBuffer.clear` (buffers.py lines 136-152): every buffer is
re-filled with its constant, including the background buffer, which is
filled with `0.0` (the camera is not consulted). -/
def ScreenBuffer.clear {H W : ℕ} (_s : ScreenBuffer H W) : ScreenBuffer H W where
  opqPixelBuffer := fun _ _ => (0, 0, 0)
  depthBuffer := fun _ _ => ⊤
  normalBuffer := fun _ _ => (0, 0, 0)
  transparentPixelBuffer := fun _ _ => (0, 0, 0)
  revealageBuffer := fun _ _ => 1
  backgroundBuffer := fun _ _ => (0, 0, 0)
  imageBuffer := fun _ _ => (0, 0, 0, 0)

/-- Row flip `flip_y = H - 1 - y` of `_combine_buffers_kernel`
(buffers.py line 55). -/
def flipRow {H : ℕ} (y : Fin H) : Fin H :=
  ⟨H - 1 - y.val, by have := y.isLt; omega⟩

/-- Per-pixel body of `_combine_buffers_kernel` (buffers.py lines 25-59):
base color from the depth test, blend with the transparent accumulation by
`alpha = 1 - revealage`, output alpha forced to `1`. -/
def combinePixel (opq background transparent : RGB) (depth : WithTop ℚ)
    (revealage : ℚ) : RGBA :=
  let finalColor := if depth ≠ ⊤ then opq else background
  let alpha := 1 - revealage
  (finalColor.1 * (1 - alpha) + transparent.1 * alpha,
   finalColor.2.1 * (1 - alpha) + transparent.2.1 * alpha,
   finalColor.2.2 * (1 - alpha) + transparent.2.2 * alpha,
   1)

/-- Embeds the `ScreenBuffer.image` property (buffers.py lines 115-134):
the kernel writes, for every source row `y`, output row `H - 1 - y`; since
the flip is a bijection on rows this is stated as: output row `r` is the
combination of the six buffers at row `flipRow r`.  Only `imageBuffer` is
written. -/
def ScreenBuffer.image {H W : ℕ} (s : ScreenBuffer H W) : ScreenBuffer H W :=
  { s with
    imageBuffer := fun r x =>
      combinePixel (s.opqPixelBuffer (flipRow r) x)
        (s.backgroundBuffer (flipRow r) x)
        (s.transparentPixelBuffer (flipRow r) x)
        (s.depthBuffer (flipRow r) x)
        (s.revealageBuffer (flipRow r) x) }

/-! ## `phantomgaze/render/camera.py` -/

/-- Embeds `calculate_ray_direction` (render/camera.py lines 10-80) for
pixel `(x, y)` of an `imgH × imgW` image; `math.tan(math.pi / 4.0)` is the
exact `1`.  `sq` stands for the square root used by `normalize`. -/
def calculateRayDirection (sq : ℚ → ℚ) (x y : ℕ) (imgH imgW : ℕ)
    (cameraPosition cameraFocal cameraUp : V3) : V3 :=
  let forward := normalize sq
    (cameraFocal.1 - cameraPosition.1,
     cameraFocal.2.1 - cameraPosition.2.1,
     cameraFocal.2.2 - cameraPosition.2.2)
  let right := normalize sq (cross forward cameraUp)
  let up := cross right forward
  let center := vadd cameraPosition forward
  let aspect := (imgW : ℚ) / (imgH : ℚ)
  let s := ((x : ℚ) - (imgW : ℚ) / 2) / (imgW : ℚ) * (aspect * 1)
  let t := ((y : ℚ) - (imgH : ℚ) / 2) / (imgH : ℚ) * 1
  let pointOnImagePlane :=
    (center.1 + s * right.1 + t * up.1,
     center.2.1 + s * right.2.1 + t * up.2.1,
     center.2.2 + s * right.2.2 + t * up.2.2)
  normalize sq
    (pointOnImagePlane.1 - cameraPosition.1,
     pointOnImagePlane.2.1 - cameraPosition.2.1,
     pointOnImagePlane.2.2 - cameraPosition.2.2)

/-! ## Per-pixel render state and the OIT update -/

/-- The five per-pixel buffer entries a render pass may read or write. -/
structure PixelState where
  opqColor : RGB
  depth : WithTop ℚ
  normal : V3
  transparent : RGB
  revealage : ℚ
deriving DecidableEq

/-- Weighted Blended OIT weight `1 / ((distance / max_depth)^2 + 1)`
(render/geometry.py lines 162-163, contour.py lines 196-197, volume.py
lines 119-120). -/
def oitWeight (distance maxDepth : ℚ) : ℚ :=
  1 / ((distance / maxDepth) ^ 2 + 1)

/-- Revealage update `revealage *= (1 - alpha * weight)`
(render/geometry.py line 171, contour.py line 205). -/
def oitRevealageUpdate (revealage alpha weight : ℚ) : ℚ :=
  revealage * (1 - alpha * weight)

/-- Revealage after a sequence of OIT updates, each given as an
`(alpha, weight)` pair, starting from `start`. -/
def oitRevealageFold (updates : List (ℚ × ℚ)) (start : ℚ) : ℚ :=
  updates.foldl (fun revealage p => oitRevealageUpdate revealage p.1 p.2) start

/-! ## `phantomgaze/render/geometry.py` -/

/-- Embeds the inner pass-through loop of `render_kernel`
(render/geometry.py lines 173-187): while still inside the surface, take
`distance_threshold`-sized steps.  The loop is observed up to `fuel`
iterations; it carries `(ray_pos, distance_traveled, distance)`. -/
def passThroughLoop (sdf : V3 → ℚ) (distanceThreshold : ℚ) (rayDir : V3) :
    ℕ → V3 → ℚ → ℚ → V3 × ℚ
  | 0, rayPos, traveled, _ => (rayPos, traveled)
  | fuel + 1, rayPos, traveled, distance =>
    if distance < distanceThreshold then
      passThroughLoop sdf distanceThreshold rayDir fuel
        (stepAlong rayPos rayDir distanceThreshold)
        (traveled + distanceThreshold)
        |sdf (stepAlong rayPos rayDir distanceThreshold)|
    else (rayPos, traveled)

/-- Embeds the sphere-tracing loop of `render_kernel` (render/geometry.py
lines 107-187): adaptive steps of size `|sdf|`, abort once the traveled
distance exceeds the stored depth, opaque hits write color/depth/normal and
stop, transparent hits accumulate by OIT and pass through the surface.
`color`/`opacity` are the row `color_map_array[0]` the kernel reads, and
`sq` the square root used by `normalize`.  The `while` loop is observed up
to `fuel` iterations. -/
def geometryMarch (sdf : V3 → ℚ) (sdfDerivative : V3 → V3) (sq : ℚ → ℚ)
    (distanceThreshold : ℚ) (maxDepth : ℚ) (color : RGB) (opacity : ℚ)
    (isOpaque : Bool) (rayDir : V3) :
    ℕ → V3 → ℚ → PixelState → PixelState
  | 0, _, _, st => st
  | fuel + 1, rayPos, traveled, st =>
    if traveled < maxDepth then
      if ((traveled + |sdf rayPos| : ℚ) : WithTop ℚ) > st.depth then st
      else
        if |(|sdf rayPos|)| < distanceThreshold then
          let gradient := normalize sq
            (sdfDerivative (stepAlong rayPos rayDir |sdf rayPos|))
          let intensity := |dot gradient rayDir|
          if isOpaque then
            { st with
              opqColor :=
                (color.1 * intensity, color.2.1 * intensity, color.2.2 * intensity),
              depth := ((traveled + |sdf rayPos| : ℚ) : WithTop ℚ),
              normal := gradient }
          else
            let weight := oitWeight (traveled + |sdf rayPos|) maxDepth
            let st' :=
              { st with
                transparent :=
                  (st.transparent.1 + color.1 * weight * opacity * intensity,
                   st.transparent.2.1 + color.2.1 * weight * opacity * intensity,
                   st.transparent.2.2 + color.2.2 * weight * opacity * intensity),
                revealage := oitRevealageUpdate st.revealage opacity weight }
            let pt := passThroughLoop sdf distanceThreshold rayDir fuel
              (stepAlong rayPos rayDir |sdf rayPos|)
              (traveled + |sdf rayPos|) |sdf rayPos|
            geometryMarch sdf sdfDerivative sq distanceThreshold maxDepth color
              opacity isOpaque rayDir fuel pt.1 pt.2 st'
        else
          geometryMarch sdf sdfDerivative sq distanceThreshold maxDepth color
            opacity isOpaque rayDir fuel
            (stepAlong rayPos rayDir |sdf rayPos|)
            (traveled + |sdf rayPos|) st
    else st

/-- Embeds one pixel of `render_kernel` (render/geometry.py lines 84-187):
compute the ray direction, then march from the camera position with
`distance_traveled = 0`. -/
def geometryPixelKernel (sdf : V3 → ℚ) (sdfDerivative : V3 → V3) (sq : ℚ → ℚ)
    (distanceThreshold : ℚ) (cameraPosition cameraFocal cameraUp : V3)
    (maxDepth : ℚ) (color : RGB) (opacity : ℚ) (isOpaque : Bool)
    (x y imgH imgW : ℕ) (fuel : ℕ) (st : PixelState) : PixelState :=
  let rayDir := calculateRayDirection sq x y imgH imgW
    cameraPosition cameraFocal cameraUp
  geometryMarch sdf sdfDerivative sq distanceThreshold maxDepth color opacity
    isOpaque rayDir fuel cameraPosition 0 st

/-! ## `phantomgaze/render/contour.py` -/

/-- Embeds the marching loop of `contour_kernel` (render/contour.py lines
127-210).  The loop carries `(ray_pos, distance, value, sign)` and runs for
the step count computed before it; `none` models a faulting array read.
The source's `color[0] == cp.nan` test is identically false under IEEE
comparison semantics and is dropped. -/
def contourLoop (volume colorGrid : Grid) (spacing origin : V3) (sq : ℚ → ℚ)
    (cmap : ColorTable) (vmin vmax : ℚ) (isOpaque : Bool)
    (threshold maxDepth stepSize : ℚ) (rayDir : V3) :
    ℕ → V3 → ℚ → ℚ → ℚ → PixelState → Option PixelState
  | 0, _, _, _, _, st => some st
  | steps + 1, rayPos, distance, value, sgn, st =>
    if (distance : WithTop ℚ) > st.depth then some st
    else
      let nextRayPos := stepAlong rayPos rayDir stepSize
      match sampleArray volume spacing origin nextRayPos with
      | none => none
      | some nextValue =>
        if (nextValue - threshold) * sgn < 0 then
          let t := (threshold - value) / (nextValue - value)
          let posContour := stepAlong rayPos rayDir (t * stepSize)
          match sampleArrayDerivative volume spacing origin posContour with
          | none => none
          | some gradientRaw =>
            let gradient := normalize sq gradientRaw
            let intensity := |dot gradient rayDir|
            match sampleArray colorGrid spacing origin posContour with
            | none => none
            | some scalar =>
              match scalarToColor scalar cmap vmin vmax with
              | none => none
              | some color =>
                if isOpaque then
                  some { st with
                    opqColor :=
                      (color.1 * intensity, color.2.1 * intensity,
                       color.2.2.1 * intensity),
                    depth := (distance : WithTop ℚ),
                    normal := gradient }
                else
                  let weight := oitWeight distance maxDepth
                  let st' :=
                    { st with
                      transparent :=
                        (st.transparent.1 + color.1 * weight * color.2.2.2 * intensity,
                         st.transparent.2.1 + color.2.1 * weight * color.2.2.2 * intensity,
                         st.transparent.2.2 + color.2.2.1 * weight * color.2.2.2 * intensity),
                      revealage := oitRevealageUpdate st.revealage color.2.2.2 weight }
                  contourLoop volume colorGrid spacing origin sq cmap vmin vmax
                    isOpaque threshold maxDepth stepSize rayDir steps
                    nextRayPos (distance + stepSize) nextValue (-sgn) st'
        else
          contourLoop volume colorGrid spacing origin sq cmap vmin vmax
            isOpaque threshold maxDepth stepSize rayDir steps
            nextRayPos (distance + stepSize) nextValue sgn st

/-- Upper corner `origin + spacing * shape` of a grid's bounding box
(render/contour.py lines 97-101, volume.py lines 81-85). -/
def gridUpper (g : Grid) (spacing origin : V3) : V3 :=
  (origin.1 + spacing.1 * g.nx,
   origin.2.1 + spacing.2.1 * g.ny,
   origin.2.2 + spacing.2.2 * g.nz)

/-- Embeds one pixel of `contour_kernel` (render/contour.py lines 84-210):
ray direction, box intersection, initial sample and inside/outside sign,
then the marching loop with step count `int((t1 - t0) / step_size)`. -/
def contourPixelKernel (volume colorGrid : Grid) (spacing origin : V3)
    (sq : ℚ → ℚ) (cameraPosition cameraFocal cameraUp : V3)
    (maxDepth threshold : ℚ) (cmap : ColorTable) (vmin vmax : ℚ)
    (isOpaque : Bool) (x y imgH imgW : ℕ) (st : PixelState) :
    Option PixelState :=
  let rayDir := calculateRayDirection sq x y imgH imgW
    cameraPosition cameraFocal cameraUp
  let tt := rayIntersectBox origin (gridUpper volume spacing origin)
    cameraPosition rayDir
  if tt.1 > tt.2 then some st
  else
    let rayPos := stepAlong cameraPosition rayDir tt.1
    let stepSize := min spacing.1 (min spacing.2.1 spacing.2.2)
    match sampleArray volume spacing origin rayPos with
    | none => none
    | some value =>
      let sgn : ℚ := if value > threshold then 1 else -1
      contourLoop volume colorGrid spacing origin sq cmap vmin vmax isOpaque
        threshold maxDepth stepSize rayDir
        (pyInt ((tt.2 - tt.1) / stepSize)).toNat rayPos tt.1 value sgn st

/-! ## `phantomgaze/render/volume.py` -/

/-- Transparent-accumulation state of the volume pass (it reads the depth
buffer but never writes it, and touches no opaque buffer). -/
structure VolPixelState where
  transparent : RGB
  revealage : ℚ
deriving DecidableEq

/-- Embeds the marching loop of `volume_kernel` (render/volume.py lines
105-142): break once `distance` exceeds the stored depth, otherwise sample,
color, and accumulate the step-size-scaled OIT contribution.  There is no
other early exit in the loop body. -/
def volumeLoop (volume : Grid) (spacing origin : V3) (cmap : ColorTable)
    (vmin vmax maxDepth stepSize : ℚ) (rayDir : V3) (depth : WithTop ℚ) :
    ℕ → V3 → ℚ → VolPixelState → Option VolPixelState
  | 0, _, _, st => some st
  | steps + 1, rayPos, distance, st =>
    if (distance : WithTop ℚ) > depth then some st
    else
      match sampleArray volume spacing origin rayPos with
      | none => none
      | some value =>
        match scalarToColor value cmap vmin vmax with
        | none => none
        | some color =>
          let weight := oitWeight distance maxDepth
          let st' : VolPixelState :=
            { transparent :=
                (st.transparent.1 + color.1 * weight * color.2.2.2 * stepSize,
                 st.transparent.2.1 + color.2.1 * weight * color.2.2.2 * stepSize,
                 st.transparent.2.2 + color.2.2.1 * weight * color.2.2.2 * stepSize),
              revealage := st.revealage * (1 - color.2.2.2 * weight * stepSize) }
          volumeLoop volume spacing origin cmap vmin vmax maxDepth stepSize
            rayDir depth steps (stepAlong rayPos rayDir stepSize)
            (distance + stepSize) st'

/-- Embeds one pixel of `volume_kernel` (render/volume.py lines 68-142):
ray direction, box intersection, then the marching loop with step count
`int((t1 - t0) / step_size)`. -/
def volumePixelKernel (volume : Grid) (spacing origin : V3) (sq : ℚ → ℚ)
    (cameraPosition cameraFocal cameraUp : V3) (maxDepth : ℚ)
    (cmap : ColorTable) (vmin vmax : ℚ) (depth : WithTop ℚ)
    (x y imgH imgW : ℕ) (st : VolPixelState) : Option VolPixelState :=
  let rayDir := calculateRayDirection sq x y imgH imgW
    cameraPosition cameraFocal cameraUp
  let tt := rayIntersectBox origin (gridUpper volume spacing origin)
    cameraPosition rayDir
  if tt.1 > tt.2 then some st
  else
    let rayPos := stepAlong cameraPosition rayDir tt.1
    let stepSize := min spacing.1 (min spacing.2.1 spacing.2.2)
    volumeLoop volume spacing origin cmap vmin vmax maxDepth stepSize rayDir
      depth (pyInt ((tt.2 - tt.1) / stepSize)).toNat rayPos tt.1 st

/-! ## `phantomgaze/objects/geometry.py` -/

/-- Embeds the `Geometry` node (objects/geometry.py lines 8-31): a signed
distance function, an axis-aligned bound box, and the surface-detection
threshold. -/
structure Geometry where
  sdf : V3 → ℚ
  lowerBound : V3
  upperBound : V3
  distanceThreshold : ℚ

/-- Embeds `Geometry.__add__` (objects/geometry.py lines 48-85): union by
`min` of distances, bounds expanded to the min/max envelope, threshold the
`min` of the two thresholds. -/
def Geometry.add (a b : Geometry) : Geometry where
  sdf := fun pos => min (a.sdf pos) (b.sdf pos)
  lowerBound :=
    (min a.lowerBound.1 b.lowerBound.1,
     min a.lowerBound.2.1 b.lowerBound.2.1,
     min a.lowerBound.2.2 b.lowerBound.2.2)
  upperBound :=
    (max a.upperBound.1 b.upperBound.1,
     max a.upperBound.2.1 b.upperBound.2.1,
     max a.upperBound.2.2 b.upperBound.2.2)
  distanceThreshold := min a.distanceThreshold b.distanceThreshold

/-- Embeds `Geometry.__sub__` (objects/geometry.py lines 87-108):
difference by `max(dA, -dB)`, keeping A's bounds and threshold. -/
def Geometry.sub (a b : Geometry) : Geometry where
  sdf := fun pos => max (a.sdf pos) (-(b.sdf pos))
  lowerBound := a.lowerBound
  upperBound := a.upperBound
  distanceThreshold := a.distanceThreshold

/-- Embeds `Geometry.__and__` (objects/geometry.py lines 110-143):
intersection by `max` of distances, bounds shrunk componentwise, threshold
the `min` of the two thresholds. -/
def Geometry.inter (a b : Geometry) : Geometry where
  sdf := fun pos => max (a.sdf pos) (b.sdf pos)
  lowerBound :=
    (max a.lowerBound.1 b.lowerBound.1,
     max a.lowerBound.2.1 b.lowerBound.2.1,
     max a.lowerBound.2.2 b.lowerBound.2.2)
  upperBound :=
    (min a.upperBound.1 b.upperBound.1,
     min a.upperBound.2.1 b.upperBound.2.1,
     min a.upperBound.2.2 b.upperBound.2.2)
  distanceThreshold := min a.distanceThreshold b.distanceThreshold

/-- Embeds `Geometry.translate` (objects/geometry.py lines 145-181). -/
def Geometry.translateBy (a : Geometry) (translation : V3) : Geometry where
  sdf := fun pos =>
    a.sdf (pos.1 - translation.1, pos.2.1 - translation.2.1,
      pos.2.2 - translation.2.2)
  lowerBound := vadd a.lowerBound translation
  upperBound := vadd a.upperBound translation
  distanceThreshold := a.distanceThreshold

/-! ## Sequencing render passes over one pixel (for the depth invariant)

A pass over a shared `ScreenBuffer` acts independently on each pixel's
entries, so a sequence of geometry-pass and contour-pass invocations is
modelled per pixel: each element carries the full argument list of the
corresponding kernel. -/

/-- One geometry-pass or contour-pass invocation, with the arguments its
kernel receives for one pixel. -/
inductive RenderPass where
  | geom (sdf : V3 → ℚ) (sdfDerivative : V3 → V3) (sq : ℚ → ℚ)
      (distanceThreshold : ℚ) (cameraPosition cameraFocal cameraUp : V3)
      (maxDepth : ℚ) (color : RGB) (opacity : ℚ) (isOpaque : Bool)
      (x y imgH imgW : ℕ) (fuel : ℕ)
  | contour (volume colorGrid : Grid) (spacing origin : V3) (sq : ℚ → ℚ)
      (cameraPosition cameraFocal cameraUp : V3) (maxDepth threshold : ℚ)
      (cmap : ColorTable) (vmin vmax : ℚ) (isOpaque : Bool)
      (x y imgH imgW : ℕ)

/-- Run one pass on one pixel's buffer entries (`none` = faulting read). -/
def applyPass : RenderPass → PixelState → Option PixelState
  | .geom sdf sdfDerivative sq distanceThreshold cameraPosition cameraFocal
      cameraUp maxDepth color opacity isOpaque x y imgH imgW fuel, st =>
    some (geometryPixelKernel sdf sdfDerivative sq distanceThreshold
      cameraPosition cameraFocal cameraUp maxDepth color opacity isOpaque
      x y imgH imgW fuel st)
  | .contour volume colorGrid spacing origin sq cameraPosition cameraFocal
      cameraUp maxDepth threshold cmap vmin vmax isOpaque x y imgH imgW, st =>
    contourPixelKernel volume colorGrid spacing origin sq cameraPosition
      cameraFocal cameraUp maxDepth threshold cmap vmin vmax isOpaque
      x y imgH imgW st

/-- Run a sequence of passes on one pixel's buffer entries. -/
def runPasses : List RenderPass → PixelState → Option PixelState
  | [], st => some st
  | p :: ps, st => (applyPass p st).bind (runPasses ps)

/-! ## `phantomgaze/coloring.py` -/

/-- Python value passed as the `opacity` argument of `Colormap.__init__`:
`None`, a `float`, an array-like (`list`/`tuple`/`ndarray`), or anything
else. -/
inductive PyOpacity where
  | none
  | float (q : ℚ)
  | arr (l : List ℚ)
  | other
deriving DecidableEq

/-- Embeds the opacity dispatch of `Colormap.__init__` (coloring.py lines
82-93), deciding the `opaque` flag or raising `TypeError`.  The writes to
the alpha column of `color_map_array` on the non-opaque branches are not
modelled; only the flag and the raise are. -/
def colormapOpacityFlag (opacity : PyOpacity) : Except String Bool :=
  match opacity with
  | .none => .ok true
  | .float q => if q = 1 then .ok true
      else if q < 1 then .ok false
      else .error "Invalid opacity type."
  | .arr _ => .ok false
  | .other => .error "Invalid opacity type."

/-! ## Concrete instances used by counterexamples and witnesses -/

/-- Camera with a 1×1 image and the source's default Paraview background
color `(0.4, 0.4, 0.55)`. -/
def camC : Camera :=
  ⟨(0, 0, 669/100), (0, 0, 0), (0, 1, 0), 1, 1, 10, (2/5, 2/5, 11/20)⟩

/-- A 4×2×2 grid storing `i^2` along the x-axis. -/
def gridQuad : Grid := ⟨4, 2, 2, fun i _ _ => (i : ℚ) ^ 2⟩

/-- A 2×2×2 all-zero grid. -/
def gridZero : Grid := ⟨2, 2, 2, fun _ _ _ => 0⟩

/-- A 2×2×2 grid holding `1/2` everywhere. -/
def gridHalf : Grid := ⟨2, 2, 2, fun _ _ _ => 1/2⟩

/-- A one-row color table with alpha `1/2`. -/
def cmapHalf : ColorTable := ⟨1, fun _ => (1, 1, 1, 1/2)⟩

/-- A two-row opaque color table. -/
def cmapTwo : ColorTable := ⟨2, fun _ => (0, 0, 0, 1)⟩

/-- Volume-pass pixel state whose accumulated opacity `1 - revealage` is
`0.99`. -/
def stSaturated : VolPixelState := ⟨(0, 0, 0), 1/100⟩

/-! ## Helper lemmas -/

/-- Row flipping is an involution. -/
theorem flipRow_flipRow {H : ℕ} (y : Fin H) : flipRow (flipRow y) = y := by
  have := y.isLt
  apply Fin.ext
  simp only [flipRow]
  omega

/-- Evaluation of `pyInt` on a numeral. -/
theorem pyInt_ofNat (n : ℕ) : pyInt (no_index (OfNat.ofNat n)) = OfNat.ofNat n := by
  simp [pyInt, Rat.num_ofNat, Rat.den_ofNat]

/-! ## Claim theorems -/

/-- C6: for all geometries `A` and `B` and every position `p`, the union
`A + B` has distance `min(dA, dB)`, bounds the componentwise min/max
envelope, and threshold `min(εA, εB)`; the intersection `A & B` has
distance `max(dA, dB)`, bounds the componentwise box intersection, and
threshold `min(εA, εB)`. -/
theorem geometry_union_intersection_laws (a b : Geometry) (p : V3) :
    (a.add b).sdf p = min (a.sdf p) (b.sdf p)
    ∧ (a.add b).lowerBound =
        (min a.lowerBound.1 b.lowerBound.1,
         min a.lowerBound.2.1 b.lowerBound.2.1,
         min a.lowerBound.2.2 b.lowerBound.2.2)
    ∧ (a.add b).upperBound =
        (max a.upperBound.1 b.upperBound.1,
         max a.upperBound.2.1 b.upperBound.2.1,
         max a.upperBound.2.2 b.upperBound.2.2)
    ∧ (a.add b).distanceThreshold = min a.distanceThreshold b.distanceThreshold
    ∧ (a.inter b).sdf p = max (a.sdf p) (b.sdf p)
    ∧ (a.inter b).lowerBound =
        (max a.lowerBound.1 b.lowerBound.1,
         max a.lowerBound.2.1 b.lowerBound.2.1,
         max a.lowerBound.2.2 b.lowerBound.2.2)
    ∧ (a.inter b).upperBound =
        (min a.upperBound.1 b.upperBound.1,
         min a.upperBound.2.1 b.upperBound.2.1,
         min a.upperBound.2.2 b.upperBound.2.2)
    ∧ (a.inter b).distanceThreshold = min a.distanceThreshold b.distanceThreshold :=
  ⟨rfl, rfl, rfl, rfl, rfl, rfl, rfl, rfl⟩

/-- C7 counterexample: on a buffer created from a camera with background
color `(0.4, 0.4, 0.55)`, `clear()` leaves the background buffer at
`(0, 0, 0)`, not the camera's background color — the background is not
re-filled from the owning camera. -/
theorem clear_background_not_from_camera :
    (ScreenBuffer.clear (ScreenBuffer.fromCamera camC)).backgroundBuffer
        ⟨0, by decide⟩ ⟨0, by decide⟩ ≠ camC.background := by
  intro h
  have h1 : (0 : ℚ) = 2/5 := congrArg Prod.fst h
  norm_num at h1

/-- C7 amended: after `clear()` the depth buffer holds `+∞` everywhere, the
revealage buffer holds `1.0`, and the opaque, normal,
transparent-accumulation, image, and background buffers hold `0` — the
background buffer is zero-filled, not re-filled from a camera (the buffer
keeps no camera reference). -/
theorem clear_resets_buffers (H W : ℕ) (s : ScreenBuffer H W)
    (y : Fin H) (x : Fin W) :
    (s.clear).opqPixelBuffer y x = (0, 0, 0)
    ∧ (s.clear).depthBuffer y x = ⊤
    ∧ (s.clear).normalBuffer y x = (0, 0, 0)
    ∧ (s.clear).transparentPixelBuffer y x = (0, 0, 0)
    ∧ (s.clear).revealageBuffer y x = 1
    ∧ (s.clear).backgroundBuffer y x = (0, 0, 0)
    ∧ (s.clear).imageBuffer y x = (0, 0, 0, 0) :=
  ⟨rfl, rfl, rfl, rfl, rfl, rfl, rfl⟩

/-- C10: `Colormap` construction yields `opaque = True` for `opacity is
None` and for a float opacity exactly `1.0`; `opaque = False` for a float
opacity strictly below `1.0` and for an array-like opacity; and a float
opacity strictly above `1.0` falls through every `isinstance` branch and
raises `TypeError`. -/
theorem colormap_opacity_dispatch (q q' : ℚ) (l : List ℚ)
    (hq : q < 1) (hq' : 1 < q') :
    colormapOpacityFlag .none = .ok true
    ∧ colormapOpacityFlag (.float 1) = .ok true
    ∧ colormapOpacityFlag (.float q) = .ok false
    ∧ colormapOpacityFlag (.arr l) = .ok false
    ∧ colormapOpacityFlag (.float q') = .error "Invalid opacity type." := by
  refine ⟨rfl, by simp [colormapOpacityFlag], ?_, rfl, ?_⟩
  · simp [colormapOpacityFlag, hq, ne_of_lt hq]
  · simp [colormapOpacityFlag, not_lt.mpr hq'.le, (ne_of_lt hq').symm]

/-- C10 witness: the dispatch evaluated at `opacity = 0.5` and
`opacity = 1.5`. -/
theorem colormap_opacity_dispatch_witness :
    colormapOpacityFlag .none = .ok true
    ∧ colormapOpacityFlag (.float 1) = .ok true
    ∧ colormapOpacityFlag (.float (1/2)) = .ok false
    ∧ colormapOpacityFlag (.arr [1/2]) = .ok false
    ∧ colormapOpacityFlag (.float (3/2)) = .error "Invalid opacity type." :=
  colormap_opacity_dispatch (1/2) (3/2) [1/2] (by norm_num) (by norm_num)

/-- C1: reading `image()` computes each pixel purely from the six buffers
and independent of prior calls (idempotent): base = opaque color when the
depth is finite (≠ `+∞`), else background; with `alpha = 1 - revealage` the
output is `base·(1-alpha) + transparent_accum·alpha`, written to the
vertically flipped row with the alpha channel forced to `1`. -/
theorem image_combine_spec (H W : ℕ) (s s' : ScreenBuffer H W)
    (y : Fin H) (x : Fin W)
    (h1 : s.opqPixelBuffer = s'.opqPixelBuffer)
    (h2 : s.depthBuffer = s'.depthBuffer)
    (h3 : s.normalBuffer = s'.normalBuffer)
    (h4 : s.transparentPixelBuffer = s'.transparentPixelBuffer)
    (h5 : s.revealageBuffer = s'.revealageBuffer)
    (h6 : s.backgroundBuffer = s'.backgroundBuffer) :
    (s.image).image = s.image
    ∧ (s.image).imageBuffer = (s'.image).imageBuffer
    ∧ (s.image).imageBuffer (flipRow y) x =
        ((if s.depthBuffer y x ≠ ⊤ then s.opqPixelBuffer y x
            else s.backgroundBuffer y x).1
           * (1 - (1 - s.revealageBuffer y x))
           + (s.transparentPixelBuffer y x).1 * (1 - s.revealageBuffer y x),
         (if s.depthBuffer y x ≠ ⊤ then s.opqPixelBuffer y x
            else s.backgroundBuffer y x).2.1
           * (1 - (1 - s.revealageBuffer y x))
           + (s.transparentPixelBuffer y x).2.1 * (1 - s.revealageBuffer y x),
         (if s.depthBuffer y x ≠ ⊤ then s.opqPixelBuffer y x
            else s.backgroundBuffer y x).2.2
           * (1 - (1 - s.revealageBuffer y x))
           + (s.transparentPixelBuffer y x).2.2 * (1 - s.revealageBuffer y x),
         1) := by
  refine ⟨rfl, ?_, ?_⟩
  · simp [ScreenBuffer.image, h1, h2, h4, h5, h6]
  · simp [ScreenBuffer.image, combinePixel, flipRow_flipRow]

/-- C1 witness: the compositing specification instantiated on the 1×1
initial screen buffer. -/
theorem image_combine_spec_witness :
    ((ScreenBuffer.init 1 1).image).image = (ScreenBuffer.init 1 1).image
    ∧ ((ScreenBuffer.init 1 1).image).imageBuffer
        = ((ScreenBuffer.init 1 1).image).imageBuffer
    ∧ ((ScreenBuffer.init 1 1).image).imageBuffer
        (flipRow ⟨0, by decide⟩) ⟨0, by decide⟩ =
        ((if (ScreenBuffer.init 1 1).depthBuffer ⟨0, by decide⟩ ⟨0, by decide⟩ ≠ ⊤
            then (ScreenBuffer.init 1 1).opqPixelBuffer ⟨0, by decide⟩ ⟨0, by decide⟩
            else (ScreenBuffer.init 1 1).backgroundBuffer ⟨0, by decide⟩ ⟨0, by decide⟩).1
           * (1 - (1 - (ScreenBuffer.init 1 1).revealageBuffer ⟨0, by decide⟩ ⟨0, by decide⟩))
           + ((ScreenBuffer.init 1 1).transparentPixelBuffer ⟨0, by decide⟩ ⟨0, by decide⟩).1
             * (1 - (ScreenBuffer.init 1 1).revealageBuffer ⟨0, by decide⟩ ⟨0, by decide⟩),
         (if (ScreenBuffer.init 1 1).depthBuffer ⟨0, by decide⟩ ⟨0, by decide⟩ ≠ ⊤
            then (ScreenBuffer.init 1 1).opqPixelBuffer ⟨0, by decide⟩ ⟨0, by decide⟩
            else (ScreenBuffer.init 1 1).backgroundBuffer ⟨0, by decide⟩ ⟨0, by decide⟩).2.1
           * (1 - (1 - (ScreenBuffer.init 1 1).revealageBuffer ⟨0, by decide⟩ ⟨0, by decide⟩))
           + ((ScreenBuffer.init 1 1).transparentPixelBuffer ⟨0, by decide⟩ ⟨0, by decide⟩).2.1
             * (1 - (ScreenBuffer.init 1 1).revealageBuffer ⟨0, by decide⟩ ⟨0, by decide⟩),
         (if (ScreenBuffer.init 1 1).depthBuffer ⟨0, by decide⟩ ⟨0, by decide⟩ ≠ ⊤
            then (ScreenBuffer.init 1 1).opqPixelBuffer ⟨0, by decide⟩ ⟨0, by decide⟩
            else (ScreenBuffer.init 1 1).backgroundBuffer ⟨0, by decide⟩ ⟨0, by decide⟩).2.2
           * (1 - (1 - (ScreenBuffer.init 1 1).revealageBuffer ⟨0, by decide⟩ ⟨0, by decide⟩))
           + ((ScreenBuffer.init 1 1).transparentPixelBuffer ⟨0, by decide⟩ ⟨0, by decide⟩).2.2
             * (1 - (ScreenBuffer.init 1 1).revealageBuffer ⟨0, by decide⟩ ⟨0, by decide⟩),
         1) :=
  image_combine_spec 1 1 (ScreenBuffer.init 1 1) (ScreenBuffer.init 1 1)
    ⟨0, by decide⟩ ⟨0, by decide⟩ rfl rfl rfl rfl rfl rfl

/-- Each OIT revealage update with `alpha, weight ∈ [0, 1]` keeps the
revealage within `[0, r]` when started at `r ≥ 0`. -/
theorem oitRevealageFold_le (l : List (ℚ × ℚ)) :
    ∀ r : ℚ, (∀ p ∈ l, 0 ≤ p.1 ∧ p.1 ≤ 1 ∧ 0 ≤ p.2 ∧ p.2 ≤ 1) → 0 ≤ r →
      0 ≤ oitRevealageFold l r ∧ oitRevealageFold l r ≤ r := by
  induction l with
  | nil => intro r _ hr; exact ⟨hr, le_refl r⟩
  | cons p l ih =>
    intro r hmem hr
    obtain ⟨ha0, ha1, hw0, hw1⟩ := hmem p (List.mem_cons_self p l)
    have hmem' : ∀ q ∈ l, 0 ≤ q.1 ∧ q.1 ≤ 1 ∧ 0 ≤ q.2 ∧ q.2 ≤ 1 :=
      fun q hq => hmem q (List.mem_cons_of_mem p hq)
    have haw0 : 0 ≤ p.1 * p.2 := mul_nonneg ha0 hw0
    have haw1 : p.1 * p.2 ≤ 1 := mul_le_one₀ ha1 hw0 hw1
    have hfac0 : 0 ≤ 1 - p.1 * p.2 := by linarith
    have hfac1 : 1 - p.1 * p.2 ≤ 1 := by linarith
    have hr'0 : 0 ≤ oitRevealageUpdate r p.1 p.2 :=
      mul_nonneg hr hfac0
    have hr'le : oitRevealageUpdate r p.1 p.2 ≤ r := by
      calc r * (1 - p.1 * p.2) ≤ r * 1 := by
              exact mul_le_mul_of_nonneg_left hfac1 hr
        _ = r := mul_one r
    have := ih (oitRevealageUpdate r p.1 p.2) hmem' hr'0
    exact ⟨this.1, le_trans this.2 hr'le⟩

/-- C8: starting from revealage `1.0`, after any sequence of OIT updates
`revealage *= (1 - alpha·weight)` with every `alpha, weight ∈ [0, 1]`, the
revealage is non-increasing across the sequence (the value after the whole
sequence is at most the value after any prefix) and always stays in
`[0, 1]`. -/
theorem revealage_non_increasing_in_unit_interval
    (l₁ l₂ : List (ℚ × ℚ))
    (h : ∀ p ∈ l₁ ++ l₂, 0 ≤ p.1 ∧ p.1 ≤ 1 ∧ 0 ≤ p.2 ∧ p.2 ≤ 1) :
    oitRevealageFold (l₁ ++ l₂) 1 ≤ oitRevealageFold l₁ 1
    ∧ 0 ≤ oitRevealageFold (l₁ ++ l₂) 1
    ∧ oitRevealageFold (l₁ ++ l₂) 1 ≤ 1 := by
  have h₁ : ∀ p ∈ l₁, 0 ≤ p.1 ∧ p.1 ≤ 1 ∧ 0 ≤ p.2 ∧ p.2 ≤ 1 :=
    fun p hp => h p (List.mem_append_left l₂ hp)
  have h₂ : ∀ p ∈ l₂, 0 ≤ p.1 ∧ p.1 ≤ 1 ∧ 0 ≤ p.2 ∧ p.2 ≤ 1 :=
    fun p hp => h p (List.mem_append_right l₁ hp)
  have happ : oitRevealageFold (l₁ ++ l₂) 1
      = oitRevealageFold l₂ (oitRevealageFold l₁ 1) := by
    simp [oitRevealageFold, List.foldl_append]
  have hb₁ := oitRevealageFold_le l₁ 1 h₁ (by norm_num)
  have hb₂ := oitRevealageFold_le l₂ (oitRevealageFold l₁ 1) h₂ hb₁.1
  refine ⟨?_, ?_, ?_⟩
  · rw [happ]; exact hb₂.2
  · rw [happ]; exact hb₂.1
  · rw [happ]; exact le_trans hb₂.2 hb₁.2

/-- C8 witness: the revealage bound instantiated on the concrete update
sequence `[(1/2, 1)] ++ [(1, 1/2)]`. -/
theorem revealage_non_increasing_witness :
    oitRevealageFold ([(1/2, 1)] ++ [(1, 1/2)]) 1 ≤ oitRevealageFold [(1/2, 1)] 1
    ∧ 0 ≤ oitRevealageFold ([(1/2, 1)] ++ [(1, 1/2)]) 1
    ∧ oitRevealageFold ([(1/2, 1)] ++ [(1, 1/2)]) 1 ≤ 1 :=
  revealage_non_increasing_in_unit_interval [(1/2, 1)] [(1, 1/2)] (by
    intro p hp
    simp only [List.mem_append, List.mem_singleton] at hp
    rcases hp with h | h <;> subst h <;> norm_num)

/-- On nonnegative rationals, Python `int()` truncation agrees with the
floor. -/
theorem pyInt_eq_floor (q : ℚ) (hq : 0 ≤ q) : pyInt q = ⌊q⌋ := by
  rw [Rat.floor_def]
  exact Int.tdiv_eq_ediv (Rat.num_nonneg.mpr hq) (Int.ofNat_nonneg q.den)

/-- C9: for every color lookup table with at least one row and every
`vmin < vmax`, `scalar_to_color` clamps the value into `[vmin, vmax]` and
computes a table index in `[0, table_size - 1]`, so the lookup never
indexes out of bounds and the function is total. -/
theorem scalar_to_color_total (value vmin vmax : ℚ) (t : ColorTable)
    (hv : vmin < vmax) (hn : 1 ≤ t.size) :
    0 ≤ scalarColorIndex value vmin vmax t.size
    ∧ scalarColorIndex value vmin vmax t.size ≤ (t.size : ℤ) - 1
    ∧ scalarToColor value t vmin vmax
        = some (t.data (scalarColorIndex value vmin vmax t.size)) := by
  have hpos : 0 < vmax - vmin := by linarith
  have hclamp_lo : vmin ≤ min (max value vmin) vmax :=
    le_min (le_max_right value vmin) hv.le
  have hclamp_hi : min (max value vmin) vmax ≤ vmax := min_le_right _ _
  have hratio0 : 0 ≤ (min (max value vmin) vmax - vmin) / (vmax - vmin) :=
    div_nonneg (by linarith) hpos.le
  have hratio1 : (min (max value vmin) vmax - vmin) / (vmax - vmin) ≤ 1 := by
    rw [div_le_one hpos]; linarith
  have hsz : (0 : ℚ) ≤ (t.size : ℚ) - 1 := by
    have : (1 : ℚ) ≤ (t.size : ℚ) := by exact_mod_cast hn
    linarith
  have hq0 : 0 ≤ (min (max value vmin) vmax - vmin) / (vmax - vmin)
      * ((t.size : ℚ) - 1) := mul_nonneg hratio0 hsz
  have hq1 : (min (max value vmin) vmax - vmin) / (vmax - vmin)
      * ((t.size : ℚ) - 1) ≤ (t.size : ℚ) - 1 := by
    calc (min (max value vmin) vmax - vmin) / (vmax - vmin) * ((t.size : ℚ) - 1)
        ≤ 1 * ((t.size : ℚ) - 1) := mul_le_mul_of_nonneg_right hratio1 hsz
      _ = (t.size : ℚ) - 1 := one_mul _
  have hfloor : scalarColorIndex value vmin vmax t.size
      = ⌊(min (max value vmin) vmax - vmin) / (vmax - vmin) * ((t.size : ℚ) - 1)⌋ :=
    pyInt_eq_floor _ hq0
  have hlo : 0 ≤ scalarColorIndex value vmin vmax t.size := by
    rw [hfloor]; exact Int.floor_nonneg.mpr hq0
  have hhi : scalarColorIndex value vmin vmax t.size ≤ (t.size : ℤ) - 1 := by
    rw [hfloor]
    have : ((t.size : ℤ) - 1 : ℤ) = ⌊((t.size : ℚ) - 1 : ℚ)⌋ := by
      rw [show ((t.size : ℚ) - 1 : ℚ) = (((t.size : ℤ) - 1 : ℤ) : ℚ) by push_cast; ring]
      exact (Int.floor_intCast _).symm
    rw [this]
    exact Int.floor_le_floor hq1
  refine ⟨hlo, hhi, ?_⟩
  have hle : scalarColorIndex value vmin vmax t.size < (t.size : ℤ) := by omega
  simp [scalarToColor, ColorTable.get?, hlo, hle]

/-- C9 witness: the bound instantiated at `value = 5`, range `[0, 1]`, and
a two-row table. -/
theorem scalar_to_color_total_witness :
    0 ≤ scalarColorIndex 5 0 1 cmapTwo.size
    ∧ scalarColorIndex 5 0 1 cmapTwo.size ≤ (cmapTwo.size : ℤ) - 1
    ∧ scalarToColor 5 cmapTwo 0 1
        = some (cmapTwo.data (scalarColorIndex 5 0 1 cmapTwo.size)) :=
  scalar_to_color_total 5 0 1 cmapTwo (by norm_num) (by norm_num [cmapTwo])

/-- The conditional clamp of `_safe_index_array` always lands in
`[0, n-1]` when the axis has at least one element. -/
theorem clampedIndexBounds (n : ℕ) (hn : 1 ≤ n) (i : ℤ) :
    0 ≤ (if i < 0 ∨ i ≥ (n : ℤ) then min (max i 0) ((n : ℤ) - 1) else i)
    ∧ (if i < 0 ∨ i ≥ (n : ℤ) then min (max i 0) ((n : ℤ) - 1) else i)
        < (n : ℤ) := by
  split_ifs with h
  · constructor <;> omega
  · push_neg at h; omega

/-- On a grid with at least one element per axis, `_safe_index_array`
always succeeds: the clamped indices are in range. -/
theorem safeIndexArray_isSome (g : Grid) (hx : 1 ≤ g.nx) (hy : 1 ≤ g.ny)
    (hz : 1 ≤ g.nz) (i j k : ℤ) :
    ∃ v, safeIndexArray g i j k = some v := by
  have hI := clampedIndexBounds g.nx hx i
  have hJ := clampedIndexBounds g.ny hy j
  have hK := clampedIndexBounds g.nz hz k
  simp only [safeIndexArray, Grid.get?]
  exact ⟨_, if_pos ⟨hI.1, hI.2, hJ.1, hJ.2, hK.1, hK.2⟩⟩

/-- C5 amended, part 1: `sample_array` is total — on any grid with at
least one element per axis, positive spacing, and an arbitrary query
position (including positions outside the grid bounds) all eight reads go
through the clamp and succeed. -/
theorem sample_array_total (g : Grid) (spacing origin position : V3)
    (hx : 1 ≤ g.nx) (hy : 1 ≤ g.ny) (hz : 1 ≤ g.nz)
    (hs1 : 0 < spacing.1) (hs2 : 0 < spacing.2.1) (hs3 : 0 < spacing.2.2) :
    ∃ v, sampleArray g spacing origin position = some v := by
  simp only [sampleArray, bind, Option.bind]
  obtain ⟨v000, h000⟩ := safeIndexArray_isSome g hx hy hz
    (pyInt ((position.1 - origin.1) / spacing.1))
    (pyInt ((position.2.1 - origin.2.1) / spacing.2.1))
    (pyInt ((position.2.2 - origin.2.2) / spacing.2.2))
  obtain ⟨v100, h100⟩ := safeIndexArray_isSome g hx hy hz
    (pyInt ((position.1 - origin.1) / spacing.1) + 1)
    (pyInt ((position.2.1 - origin.2.1) / spacing.2.1))
    (pyInt ((position.2.2 - origin.2.2) / spacing.2.2))
  obtain ⟨v010, h010⟩ := safeIndexArray_isSome g hx hy hz
    (pyInt ((position.1 - origin.1) / spacing.1))
    (pyInt ((position.2.1 - origin.2.1) / spacing.2.1) + 1)
    (pyInt ((position.2.2 - origin.2.2) / spacing.2.2))
  obtain ⟨v110, h110⟩ := safeIndexArray_isSome g hx hy hz
    (pyInt ((position.1 - origin.1) / spacing.1) + 1)
    (pyInt ((position.2.1 - origin.2.1) / spacing.2.1) + 1)
    (pyInt ((position.2.2 - origin.2.2) / spacing.2.2))
  obtain ⟨v001, h001⟩ := safeIndexArray_isSome g hx hy hz
    (pyInt ((position.1 - origin.1) / spacing.1))
    (pyInt ((position.2.1 - origin.2.1) / spacing.2.1))
    (pyInt ((position.2.2 - origin.2.2) / spacing.2.2) + 1)
  obtain ⟨v101, h101⟩ := safeIndexArray_isSome g hx hy hz
    (pyInt ((position.1 - origin.1) / spacing.1) + 1)
    (pyInt ((position.2.1 - origin.2.1) / spacing.2.1))
    (pyInt ((position.2.2 - origin.2.2) / spacing.2.2) + 1)
  obtain ⟨v011, h011⟩ := safeIndexArray_isSome g hx hy hz
    (pyInt ((position.1 - origin.1) / spacing.1))
    (pyInt ((position.2.1 - origin.2.1) / spacing.2.1) + 1)
    (pyInt ((position.2.2 - origin.2.2) / spacing.2.2) + 1)
  obtain ⟨v111, h111⟩ := safeIndexArray_isSome g hx hy hz
    (pyInt ((position.1 - origin.1) / spacing.1) + 1)
    (pyInt ((position.2.1 - origin.2.1) / spacing.2.1) + 1)
    (pyInt ((position.2.2 - origin.2.2) / spacing.2.2) + 1)
  rw [h000, h100, h010, h110, h001, h101, h011, h111]
  exact ⟨_, rfl⟩

/-- C4: `sample_array_derivative` evaluated at the failing input — at the
upper x-boundary cell of a 4×2×2 grid it performs the central-difference
read `array[i+1]` with `i + 1 = 4`, out of bounds (`none`); and at an
interior point it returns the backward difference `(f(1) - f(0)) / dx = 1`
of `f(i) = i²` instead of the central difference
`(f(2) - f(0)) / (2·dx) = 2` the claim describes. -/
theorem sample_array_derivative_divergence :
    sampleArrayDerivative gridQuad (1, 1, 1) (0, 0, 0) (3, 0, 0) = none
    ∧ sampleArrayDerivative gridQuad (1, 1, 1) (0, 0, 0) (1, 0, 0)
        = some (1, 0, 0) := by
  constructor <;>
    norm_num [sampleArrayDerivative, gridQuad, Grid.get?, pyInt_ofNat,
      bind, Option.bind]

/-- C5 counterexample: on a 2×2×2 grid with unit spacing (all claim
preconditions hold), `sample_array_derivative` at position `(0, 5, 0)`
reads `array[1, 5, 0]`, out of the array's valid range — the call fails
rather than clamping. -/
theorem sample_array_derivative_not_total :
    1 ≤ gridZero.nx ∧ 1 ≤ gridZero.ny ∧ 1 ≤ gridZero.nz
    ∧ sampleArrayDerivative gridZero (1, 1, 1) (0, 0, 0) (0, 5, 0) = none := by
  refine ⟨by norm_num [gridZero], by norm_num [gridZero], by norm_num [gridZero], ?_⟩
  norm_num [sampleArrayDerivative, gridZero, Grid.get?, pyInt_ofNat,
    bind, Option.bind]

/-- C5 amended: `sample_array` is total — for every grid with at least one
element per axis, positive spacing, and arbitrary query position every
index it performs is clamped into the array's valid range and the call
never fails; `sample_array_derivative` is not — it performs unclamped
reads and fails (indexes out of range) on in-range grids, e.g. at position
`(0, 5, 0)` of a 2×2×2 unit-spacing grid. -/
theorem sample_array_total_derivative_not (g : Grid)
    (spacing origin position : V3)
    (hx : 1 ≤ g.nx) (hy : 1 ≤ g.ny) (hz : 1 ≤ g.nz)
    (hs1 : 0 < spacing.1) (hs2 : 0 < spacing.2.1) (hs3 : 0 < spacing.2.2) :
    (∃ v, sampleArray g spacing origin position = some v)
    ∧ sampleArrayDerivative gridZero (1, 1, 1) (0, 0, 0) (0, 5, 0) = none := by
  refine ⟨sample_array_total g spacing origin position hx hy hz hs1 hs2 hs3, ?_⟩
  norm_num [sampleArrayDerivative, gridZero, Grid.get?, pyInt_ofNat,
    bind, Option.bind]

/-- C5 witness: the amended statement instantiated on the all-zero 2×2×2
grid at an out-of-bounds position. -/
theorem sample_array_total_derivative_not_witness :
    (∃ v, sampleArray gridZero (1, 1, 1) (0, 0, 0) (7, -3, 1/2) = some v)
    ∧ sampleArrayDerivative gridZero (1, 1, 1) (0, 0, 0) (0, 5, 0) = none :=
  sample_array_total_derivative_not gridZero (1, 1, 1) (0, 0, 0) (7, -3, 1/2)
    (by norm_num [gridZero]) (by norm_num [gridZero]) (by norm_num [gridZero])
    (by norm_num) (by norm_num) (by norm_num)

/-- C3 counterexample: a marching step of `volume_kernel` whose entry
state already has accumulated opacity `1 - revealage = 0.99` still
executes its accumulation (the state changes), so the loop does not
terminate early when the accumulated opacity reaches `0.99`. -/
theorem volume_loop_no_opacity_cutoff :
    (99 : ℚ)/100 ≤ 1 - stSaturated.revealage
    ∧ volumeLoop gridHalf (1, 1, 1) (0, 0, 0) cmapHalf 0 1 10 1 (1, 0, 0) ⊤ 1
        (0, 0, 0) 0 stSaturated ≠ some stSaturated := by
  constructor
  · norm_num [stSaturated]
  · norm_num [volumeLoop, sampleArray, safeIndexArray, gridHalf, Grid.get?,
      scalarToColor, scalarColorIndex, ColorTable.get?, cmapHalf, oitWeight,
      trilinearInterpolation, pyInt_ofNat, bind, Option.bind, stSaturated,
      VolPixelState.mk.injEq, Prod.ext_iff]

/-- C3 amended: the volume pass's marching loop terminates early when the
distance marched exceeds the pixel's current depth-buffer value (the state
is returned unchanged); the loop has no opacity-based early termination —
accumulation continues regardless of the accumulated opacity. -/
theorem volume_loop_depth_early_exit (volume : Grid) (spacing origin : V3)
    (cmap : ColorTable) (vmin vmax maxDepth stepSize : ℚ) (rayDir : V3)
    (depth : WithTop ℚ) (steps : ℕ) (rayPos : V3) (distance : ℚ)
    (st : VolPixelState) (h : (distance : WithTop ℚ) > depth) :
    volumeLoop volume spacing origin cmap vmin vmax maxDepth stepSize rayDir
      depth steps rayPos distance st = some st := by
  cases steps with
  | zero => rfl
  | succ n => rw [volumeLoop, if_pos h]

/-- C3 witness: the depth-based early exit instantiated at
`distance = 1 > depth = 1/2`. -/
theorem volume_loop_depth_early_exit_witness :
    volumeLoop gridHalf (1, 1, 1) (0, 0, 0) cmapHalf 0 1 10 1 (1, 0, 0)
      ((1/2 : ℚ) : WithTop ℚ) 3 (0, 0, 0) 1 stSaturated = some stSaturated :=
  volume_loop_depth_early_exit gridHalf (1, 1, 1) (0, 0, 0) cmapHalf 0 1 10 1
    (1, 0, 0) ((1/2 : ℚ) : WithTop ℚ) 3 (0, 0, 0) 1 stSaturated
    (by exact_mod_cast (show (1/2 : ℚ) < 1 by norm_num))

/-- The sphere-tracing loop never increases the stored depth: it writes
the depth only on an opaque hit, which is guarded by the depth test of the
same iteration. -/
theorem geometryMarch_depth_le (sdf : V3 → ℚ) (sdfDerivative : V3 → V3)
    (sq : ℚ → ℚ) (distanceThreshold maxDepth : ℚ) (color : RGB) (opacity : ℚ)
    (isOpaque : Bool) (rayDir : V3) :
    ∀ (fuel : ℕ) (rayPos : V3) (traveled : ℚ) (st : PixelState),
      (geometryMarch sdf sdfDerivative sq distanceThreshold maxDepth color
        opacity isOpaque rayDir fuel rayPos traveled st).depth ≤ st.depth := by
  intro fuel
  induction fuel with
  | zero => intro rayPos traveled st; exact le_refl _
  | succ n ih =>
    intro rayPos traveled st
    simp only [geometryMarch]
    by_cases h1 : traveled < maxDepth
    · rw [if_pos h1]
      by_cases h2 : ((traveled + |sdf rayPos| : ℚ) : WithTop ℚ) > st.depth
      · rw [if_pos h2]
      · rw [if_neg h2]
        by_cases h3 : |(|sdf rayPos|)| < distanceThreshold
        · rw [if_pos h3]
          cases isOpaque with
          | true =>
            rw [if_pos rfl]
            exact not_lt.mp h2
          | false =>
            rw [if_neg (by simp)]
            exact ih _ _ _
        · rw [if_neg h3]
          exact ih _ _ _
    · rw [if_neg h1]

/-- The contour-marching loop never increases the stored depth: its opaque
write stores the iteration's `distance`, which passed the depth test at
the top of the iteration. -/
theorem contourLoop_depth_le (volume colorGrid : Grid) (spacing origin : V3)
    (sq : ℚ → ℚ) (cmap : ColorTable) (vmin vmax : ℚ) (isOpaque : Bool)
    (threshold maxDepth stepSize : ℚ) (rayDir : V3) :
    ∀ (steps : ℕ) (rayPos : V3) (distance value sgn : ℚ)
      (st st' : PixelState),
      contourLoop volume colorGrid spacing origin sq cmap vmin vmax isOpaque
        threshold maxDepth stepSize rayDir steps rayPos distance value sgn st
        = some st' → st'.depth ≤ st.depth := by
  intro steps
  induction steps with
  | zero =>
    intro rayPos distance value sgn st st' h
    simp only [contourLoop, Option.some.injEq] at h
    subst h
    exact le_refl _
  | succ n ih =>
    intro rayPos distance value sgn st st' h
    simp only [contourLoop] at h
    by_cases h1 : (distance : WithTop ℚ) > st.depth
    · rw [if_pos h1, Option.some.injEq] at h
      subst h
      exact le_refl _
    · rw [if_neg h1] at h
      cases hs : sampleArray volume spacing origin (stepAlong rayPos rayDir stepSize) with
      | none =>
        rw [hs] at h
        exact Option.noConfusion h
      | some nextValue =>
        rw [hs] at h
        dsimp only at h
        by_cases h2 : (nextValue - threshold) * sgn < 0
        · rw [if_pos h2] at h
          cases hd : sampleArrayDerivative volume spacing origin
              (stepAlong rayPos rayDir
                ((threshold - value) / (nextValue - value) * stepSize)) with
          | none =>
            rw [hd] at h
            exact Option.noConfusion h
          | some gradientRaw =>
            rw [hd] at h
            dsimp only at h
            cases hc : sampleArray colorGrid spacing origin
                (stepAlong rayPos rayDir
                  ((threshold - value) / (nextValue - value) * stepSize)) with
            | none =>
              rw [hc] at h
              exact Option.noConfusion h
            | some scalar =>
              rw [hc] at h
              dsimp only at h
              cases hcol : scalarToColor scalar cmap vmin vmax with
              | none =>
                rw [hcol] at h
                exact Option.noConfusion h
              | some color =>
                rw [hcol] at h
                dsimp only at h
                cases isOpaque with
                | true =>
                  rw [if_pos rfl, Option.some.injEq] at h
                  subst h
                  exact not_lt.mp h1
                | false =>
                  rw [if_neg (by simp)] at h
                  have hrec := ih _ _ _ _ _ _ h
                  exact hrec
        · rw [if_neg h2] at h
          exact ih _ _ _ _ _ _ h

/-- A single geometry or contour pass never increases a pixel's stored
depth. -/
theorem applyPass_depth_le (p : RenderPass) (st st' : PixelState)
    (h : applyPass p st = some st') : st'.depth ≤ st.depth := by
  cases p with
  | geom sdf sdfDerivative sq distanceThreshold cameraPosition cameraFocal
      cameraUp maxDepth color opacity isOpaque x y imgH imgW fuel =>
    simp only [applyPass, Option.some.injEq] at h
    subst h
    exact geometryMarch_depth_le sdf sdfDerivative sq distanceThreshold
      maxDepth color opacity isOpaque _ fuel _ 0 st
  | contour volume colorGrid spacing origin sq cameraPosition cameraFocal
      cameraUp maxDepth threshold cmap vmin vmax isOpaque x y imgH imgW =>
    simp only [applyPass, contourPixelKernel] at h
    by_cases htt : (rayIntersectBox origin (gridUpper volume spacing origin)
        cameraPosition (calculateRayDirection sq x y imgH imgW cameraPosition
          cameraFocal cameraUp)).1
        > (rayIntersectBox origin (gridUpper volume spacing origin)
        cameraPosition (calculateRayDirection sq x y imgH imgW cameraPosition
          cameraFocal cameraUp)).2
    · rw [if_pos htt, Option.some.injEq] at h
      subst h
      exact le_refl _
    · rw [if_neg htt] at h
      cases hs : sampleArray volume spacing origin
          (stepAlong cameraPosition
            (calculateRayDirection sq x y imgH imgW cameraPosition cameraFocal
              cameraUp)
            (rayIntersectBox origin (gridUpper volume spacing origin)
              cameraPosition (calculateRayDirection sq x y imgH imgW
                cameraPosition cameraFocal cameraUp)).1) with
      | none =>
        rw [hs] at h
        exact Option.noConfusion h
      | some value =>
        rw [hs] at h
        dsimp only at h
        exact contourLoop_depth_le volume colorGrid spacing origin sq cmap
          vmin vmax isOpaque threshold maxDepth _ _ _ _ _ _ _ _ _ h

/-- Any sequence of geometry and contour passes leaves a pixel's stored
depth no larger than it started. -/
theorem runPasses_depth_le :
    ∀ (l : List RenderPass) (st st' : PixelState),
      runPasses l st = some st' → st'.depth ≤ st.depth := by
  intro l
  induction l with
  | nil =>
    intro st st' h
    simp only [runPasses, Option.some.injEq] at h
    subst h
    exact le_refl _
  | cons p ps ih =>
    intro st st' h
    simp only [runPasses] at h
    cases hp : applyPass p st with
    | none =>
      rw [hp] at h
      exact Option.noConfusion h
    | some st₁ =>
      rw [hp, Option.some_bind] at h
      exact le_trans (ih st₁ st' h) (applyPass_depth_le p st st₁ hp)

/-- C2: for every pixel and every sequence of geometry-pass and
contour-pass invocations (modelled per pixel, since each pass touches each
pixel's buffer entries independently), the stored depth is monotonically
non-increasing; moreover a sphere-tracing step whose updated traveled
distance exceeds the stored depth terminates the march without writing,
and a contour step whose marched distance exceeds the stored depth does
likewise. -/
theorem depth_monotone_across_passes
    (l : List RenderPass) (st st' : PixelState)
    (h : runPasses l st = some st')
    (sdf : V3 → ℚ) (sdfDerivative : V3 → V3) (sq : ℚ → ℚ)
    (distanceThreshold maxDepth : ℚ) (color : RGB) (opacity : ℚ)
    (isOpaque : Bool) (rayDir rayPos : V3) (fuel : ℕ) (traveled : ℚ)
    (st₂ : PixelState)
    (hguard : ((traveled + |sdf rayPos| : ℚ) : WithTop ℚ) > st₂.depth)
    (hlt : traveled < maxDepth)
    (volume colorGrid : Grid) (spacing origin : V3) (csq : ℚ → ℚ)
    (cmap : ColorTable) (cvmin cvmax cthreshold cmaxDepth cstepSize : ℚ)
    (cisOpaque : Bool) (crayDir crayPos : V3) (csteps : ℕ)
    (cdistance cvalue csgn : ℚ) (st₃ : PixelState)
    (hguard2 : (cdistance : WithTop ℚ) > st₃.depth) :
    st'.depth ≤ st.depth
    ∧ geometryMarch sdf sdfDerivative sq distanceThreshold maxDepth color
        opacity isOpaque rayDir (fuel + 1) rayPos traveled st₂ = st₂
    ∧ contourLoop volume colorGrid spacing origin csq cmap cvmin cvmax
        cisOpaque cthreshold cmaxDepth cstepSize crayDir (csteps + 1)
        crayPos cdistance cvalue csgn st₃ = some st₃ := by
  refine ⟨runPasses_depth_le l st st' h, ?_, ?_⟩
  · simp only [geometryMarch]
    rw [if_pos hlt, if_pos hguard]
  · simp only [contourLoop]
    rw [if_pos hguard2]

/-- C2 witness: the statement instantiated on the empty pass sequence, a
one-step sphere-tracing march against stored depth `1/2`, and a one-step
contour march against stored depth `1/2`. -/
theorem depth_monotone_across_passes_witness :
    (⟨(0, 0, 0), ⊤, (0, 0, 0), (0, 0, 0), 1⟩ : PixelState).depth
      ≤ (⟨(0, 0, 0), ⊤, (0, 0, 0), (0, 0, 0), 1⟩ : PixelState).depth
    ∧ geometryMarch (fun _ => 1) (fun _ => (0, 0, 0)) (fun q => q) 1 1
        (1, 1, 1) 1 true (1, 0, 0) (0 + 1) (0, 0, 0) 0
        ⟨(0, 0, 0), ((1/2 : ℚ) : WithTop ℚ), (0, 0, 0), (0, 0, 0), 1⟩
      = ⟨(0, 0, 0), ((1/2 : ℚ) : WithTop ℚ), (0, 0, 0), (0, 0, 0), 1⟩
    ∧ contourLoop gridZero gridZero (1, 1, 1) (0, 0, 0) (fun q => q) cmapTwo
        0 1 true 0 10 1 (1, 0, 0) (0 + 1) (0, 0, 0) 1 0 1
        ⟨(0, 0, 0), ((1/2 : ℚ) : WithTop ℚ), (0, 0, 0), (0, 0, 0), 1⟩
      = some ⟨(0, 0, 0), ((1/2 : ℚ) : WithTop ℚ), (0, 0, 0), (0, 0, 0), 1⟩ :=
  depth_monotone_across_passes []
    ⟨(0, 0, 0), ⊤, (0, 0, 0), (0, 0, 0), 1⟩
    ⟨(0, 0, 0), ⊤, (0, 0, 0), (0, 0, 0), 1⟩ rfl
    (fun _ => 1) (fun _ => (0, 0, 0)) (fun q => q) 1 1 (1, 1, 1) 1 true
    (1, 0, 0) (0, 0, 0) 0 0
    ⟨(0, 0, 0), ((1/2 : ℚ) : WithTop ℚ), (0, 0, 0), (0, 0, 0), 1⟩
    (by
      show ((0 + |(1 : ℚ)| : ℚ) : WithTop ℚ) > ((1/2 : ℚ) : WithTop ℚ)
      exact_mod_cast (show (1/2 : ℚ) < 0 + |(1 : ℚ)| by norm_num))
    (by norm_num)
    gridZero gridZero (1, 1, 1) (0, 0, 0) (fun q => q) cmapTwo 0 1 0 10 1
    true (1, 0, 0) (0, 0, 0) 0 1 0 1
    ⟨(0, 0, 0), ((1/2 : ℚ) : WithTop ℚ), (0, 0, 0), (0, 0, 0), 1⟩
    (by
      show ((1 : ℚ) : WithTop ℚ) > ((1/2 : ℚ) : WithTop ℚ)
      exact_mod_cast (show (1/2 : ℚ) < 1 by norm_num))

end PhantomGaze
